import Mathlib

/-
Shallow embedding of the grading-calendar-ai repository core:
  - the Status Aggregator from
    src/frontend/src/components/DocumentProcessingStatus.tsx
    (derived counts, progress computation, completion notification,
    and the handleFormatDocuments / handleRetryProcessing actions), and
  - the Access Control Policy from the Firestore security rules file.

Machine arithmetic: the progress computation evaluates
(completedSteps / totalSteps) * 100 in IEEE-754 binary64 (JavaScript
number) arithmetic and applies Math.round. The two double operations
(one correctly rounded division, one correctly rounded multiplication)
are modelled exactly by toDouble, a round-to-nearest ties-to-even
rounding at 53 significant bits over exact integer fractions; on this
program's value range (step counts of a representable array are below
2^53 and hence exact doubles, quotients lie in (0, 1] and products in
(0, 101), all well inside the binary64 normal range, no overflow or
subnormals) this coincides bit-for-bit with binary64. Math.round itself
is exact on a double's value: nearest integer, ties toward positive
infinity. External effects (the callable backend function) are
modelled by passing the call outcome in as data and returning the list
of issued invocations alongside the new component state.
-/

namespace GradingCalendar

/-- A document record as read from the snapshot stream
(interface Document in DocumentProcessingStatus.tsx). The status field
is an arbitrary string in the source, not an enumeration. -/
structure Document where
  id : String
  documentType : String
  status : String
  name : String
  errMsg : Option String := none
deriving Repr, DecidableEq

/-- Per-status counts (the documentCounts object literal). -/
structure DocumentCounts where
  uploaded : Nat
  extracted : Nat
  processed : Nat
  errored : Nat
deriving Repr, DecidableEq

/-- documentCounts: four filters over the current document list, one per
status bucket. -/
def documentCounts (documents : List Document) : DocumentCounts :=
  { uploaded := (documents.filter (fun d => d.status == "uploaded")).length
    extracted := (documents.filter (fun d => d.status == "extracted")).length
    processed := (documents.filter (fun d => d.status == "processed")).length
    errored := (documents.filter (fun d => d.status == "error")).length }

/-- Sum of the four status buckets of documentCounts. -/
def sumCounts (documents : List Document) : Nat :=
  (documentCounts documents).uploaded + (documentCounts documents).extracted +
    (documentCounts documents).processed + (documentCounts documents).errored

/-- JavaScript Math.round applied to the exact value of the nonnegative
rational num / den: the nearest integer, ties toward positive infinity.
Used in two roles: as the final step of the double-precision progress
pipeline, where the argument is the exact value of a binary64 number,
and as the exact rounding of the specification formula
round(100 * (n + e) / (2 * n)), where no intermediate double rounding
occurs. -/
def mathRound (num den : Nat) : Nat :=
  (2 * num + den) / (2 * den)

/-- Fuel-driven floor of the base-2 logarithm: log2fuel fuel n halves n
until it reaches 1, counting the steps; fuel n suffices for any n. The
fuel makes the recursion structural, hence kernel-reducible. -/
def log2fuel : Nat → Nat → Nat
  | 0, _ => 0
  | fuel + 1, n => if n ≤ 1 then 0 else log2fuel fuel (n / 2) + 1

/-- Floor of the base-2 logarithm of a positive natural number. -/
def natLog2 (n : Nat) : Nat :=
  log2fuel n n

/-- Fuel-driven search for the smallest k with den ≤ num * 2 ^ k: the
number of doublings of num needed to reach den. For 0 < num < den this
is the (positive) negated floor base-2 logarithm of num / den; fuel den
suffices. -/
def upFuel : Nat → Nat → Nat → Nat
  | 0, _, _ => 0
  | fuel + 1, num, den => if den ≤ num then 0 else upFuel fuel (num * 2) den + 1

/-- Nearest integer to n / d (for d > 0), ties to even: the integer
rounding used by IEEE-754 round-to-nearest on a scaled significand. -/
def rneDiv (n d : Nat) : Nat :=
  let f := n / d
  let twiceRem := 2 * (n - f * d)
  if twiceRem < d then f
  else if d < twiceRem then f + 1
  else if f % 2 = 0 then f else f + 1

/-- The IEEE-754 binary64 value nearest c / t (round to nearest, ties to
even, 53 significant bits, unbounded exponent), returned as an exact
fraction: a numerator paired with a power-of-two denominator. With
e = floor(log2(c / t)), the quotient is scaled by 2 ^ (52 - e) into
[2 ^ 52, 2 ^ 53), rounded to the nearest integer significand with ties
to even, and scaled back. The unbounded exponent means no overflow or
subnormal handling: on the normal range of binary64 — where every value
this program produces lies — this is exactly the double nearest c / t.
Zero (and the impossible t = 0) map to 0. -/
def toDouble (c t : Nat) : Nat × Nat :=
  if c = 0 ∨ t = 0 then (0, 1)
  else if t ≤ c then
    let e := natLog2 (c / t)
    if e ≤ 52 then (rneDiv (c * 2 ^ (52 - e)) t, 2 ^ (52 - e))
    else (rneDiv c (t * 2 ^ (e - 52)) * 2 ^ (e - 52), 1)
  else
    let k := upFuel t c t
    (rneDiv (c * 2 ^ (52 + k)) t, 2 ^ (52 + k))

/-- Math.round((c / t) * 100) as the program computes it in JavaScript
number arithmetic: the binary64 division c / t (correctly rounded), the
binary64 multiplication of the result by 100 (exact operand 100, one
more correct rounding), then Math.round, exact on the resulting
double's value. Both step counts of a representable snapshot are below
2 ^ 53 and hence exact doubles. -/
def doubleRoundPct (c t : Nat) : Nat :=
  let d := toDouble c t
  let p := toDouble (d.1 * 100) d.2
  mathRound p.1 p.2

/-- The completedSteps accumulation of calculateProgress: one step per
document (upload), plus one more for a document whose status is
extracted or processed. -/
def completedSteps (documents : List Document) : Nat :=
  documents.foldl
    (fun acc d =>
      acc + 1 + (if d.status == "extracted" || d.status == "processed" then 1 else 0))
    0

/-- calculateProgress: 0 for an empty list, otherwise
Math.round((completedSteps / totalSteps) * 100) with
totalSteps = documents.length * 2, evaluated as the source does in
IEEE-754 double arithmetic (see doubleRoundPct). -/
def calculateProgress (documents : List Document) : Nat :=
  if documents.length = 0 then 0
  else
    doubleRoundPct (completedSteps documents) (documents.length * 2)

/-- Count of records whose status is extracted or processed (the "e" of
the progress formula). -/
def extractedOrProcessedCount (documents : List Document) : Nat :=
  (documents.filter (fun d => d.status == "extracted" || d.status == "processed")).length

/-- allProcessed, computed inside the snapshot callback:
docs.length > 0 and every doc has status processed. -/
def allProcessed (docs : List Document) : Bool :=
  decide (docs.length > 0) && docs.all (fun d => d.status == "processed")

/-- canFormat: documentCounts.extracted > 0 and not isFormatting. -/
def canFormat (documents : List Document) (isFormatting : Bool) : Bool :=
  decide ((documentCounts documents).extracted > 0) && !isFormatting

/-- The snapshot subscription loop: each delivered snapshot replaces the
document list (setDocuments) and, when the snapshot is all-processed and
an onProcessingComplete callback is installed, invokes the callback.
Returns the final document state and the number of callback invocations. -/
def runSnapshots (hasCallback : Bool) (st : List Document) :
    List (List Document) → List Document × Nat
  | [] => (st, 0)
  | snap :: rest =>
    let emitted := if allProcessed snap && hasCallback then 1 else 0
    let r := runSnapshots hasCallback snap rest
    (r.1, emitted + r.2)

/-- Number of onProcessingComplete invocations over a delivered snapshot
sequence, starting from an empty document list. -/
def emissionsCount (hasCallback : Bool) (snaps : List (List Document)) : Nat :=
  (runSnapshots hasCallback [] snaps).2

/-- Modelled from the spec (for comparison with the code): the number of
transitions from a not-all-processed prior state into an all-processed
snapshot, the count at which the spec says the completion notification
is emitted. The prev flag carries whether the previous snapshot was
all-processed (initially false: before any snapshot nothing is
processed). -/
def specTransitionCount (prev : Bool) : List (List Document) → Nat
  | [] => 0
  | snap :: rest =>
    let cur := allProcessed snap
    (if cur && !prev then 1 else 0) + specTransitionCount cur rest

/-- Local state of the DocumentProcessingStatus component: the current
principal, the latest snapshot, the in-flight flag, and the error and
status messages. -/
structure ComponentState where
  currentUser : Option String
  documents : List Document
  isFormatting : Bool
  error : Option String
  status : String
deriving Repr, DecidableEq

/-- One invocation of an external callable function: its name and its
argument object, as a list of key/value pairs (empty for the empty
object argument). -/
structure FunctionCall where
  fname : String
  args : List (String × String)
deriving Repr, DecidableEq

/-- Outcome of awaiting the external callable: either a response object
with a success flag and an optional message field, or a thrown error
with an optional message. -/
inductive CallOutcome where
  | ok (success : Bool) (message : Option String)
  | thrown (message : Option String)
deriving Repr, DecidableEq

/-- JavaScript `x || d` for an optional string x: undefined and the
empty string are falsy. -/
def jsOrElse (m : Option String) (d : String) : String :=
  match m with
  | none => d
  | some s => if s = "" then d else s

/-- handleFormatDocuments: returns early when no user is authenticated;
otherwise sets the in-flight flag, clears the error, sets the status
message, invokes formatDocumentsData with an empty argument object,
branches on the response success flag or the thrown error, and finally
clears the in-flight flag. Returns the new state and the list of
invocations issued. -/
def handleFormatDocuments (s : ComponentState) (outcome : CallOutcome) :
    ComponentState × List FunctionCall :=
  match s.currentUser with
  | none => (s, [])
  | some _ =>
    let s1 : ComponentState :=
      { s with isFormatting := true, error := none, status := "Formatting documents..." }
    let s2 : ComponentState :=
      match outcome with
      | .ok true _ => { s1 with status := "Documents formatted successfully" }
      | .ok false m => { s1 with error := some (jsOrElse m "Failed to format documents") }
      | .thrown m =>
        { s1 with error := some ("Formatting failed: " ++ jsOrElse m "Unknown error") }
    ({ s2 with isFormatting := false }, [{ fname := "formatDocumentsData", args := [] }])

/-- handleRetryProcessing: returns early when no user is authenticated;
otherwise sets the status message naming the document, clears the error,
and invokes the same formatDocumentsData function with an empty argument
object. It never touches the in-flight flag. -/
def handleRetryProcessing (s : ComponentState) (documentId : String)
    (outcome : CallOutcome) : ComponentState × List FunctionCall :=
  match s.currentUser with
  | none => (s, [])
  | some _ =>
    let s1 : ComponentState :=
      { s with
        status := "Retrying processing for document " ++ documentId ++ "..."
        error := none }
    let s2 : ComponentState :=
      match outcome with
      | .ok true _ => { s1 with status := "Document processing initiated successfully" }
      | .ok false m => { s1 with error := some (jsOrElse m "Failed to process document") }
      | .thrown m =>
        { s1 with error := some ("Processing failed: " ++ jsOrElse m "Unknown error") }
    (s2, [{ fname := "formatDocumentsData", args := [] }])

/-- Operations of the Firestore rules: read, and the three write kinds
(create, update, delete). -/
inductive Op where
  | read
  | create
  | update
  | delete
deriving Repr, DecidableEq

/-- isAuthenticated helper: request.auth is non-null. -/
def isAuthenticated (auth : Option String) : Bool :=
  auth.isSome

/-- isOwner helper: authenticated and request.auth.uid equals the target
user id. -/
def isOwner (auth : Option String) (userId : String) : Bool :=
  isAuthenticated auth &&
    match auth with
    | some uid => uid == userId
    | none => false

/-- Denotation of the Firestore security rules. A path is the list of
segments below /databases/{database}/documents; store gives document
existence (for the exists() check of the courses rule). Overlapping
match blocks grant a request when any matching allow grants it; the
catch-all block allows nothing (if false), so the structured match below
is the exact decision function. -/
def authorize (store : List String → Bool) (auth : Option String)
    (path : List String) (op : Op) : Bool :=
  match path with
  | ["users", userId] =>
    match op with
    | .read => isOwner auth userId
    | .update => isOwner auth userId
    | .create => false
    | .delete => false
  | ["users", userId, "documents", _] =>
    match op with
    | .read => isOwner auth userId
    | _ => false
  | ["users", userId, "formatted_data", _] =>
    match op with
    | .read => isOwner auth userId
    | _ => false
  | ["users", userId, "data", _] =>
    match op with
    | .read => isOwner auth userId
    | _ => false
  | ["users", userId, "predictions", _] =>
    match op with
    | .read => isOwner auth userId
    | _ => false
  | ["courses", courseId] =>
    match op with
    | .read =>
      isAuthenticated auth &&
        match auth with
        | some uid => store ["users", uid, "courses", courseId]
        | none => false
    | _ => false
  | _ => false

/-- A document with status processed, for the completion-notification
scenarios. -/
def procDoc : Document :=
  { id := "1", documentType := "syllabus", status := "processed", name := "doc1" }

/-- The snapshot of Scenario B: one extracted syllabus and one processed
transcript. -/
def scenarioBDocs : List Document :=
  [ { id := "1", documentType := "syllabus", status := "extracted", name := "doc1" },
    { id := "2", documentType := "transcript", status := "processed", name := "doc2" } ]

/-- A snapshot of 20 records, 17 uploaded and 3 extracted: completedSteps
23 of totalSteps 40. The double chain evaluates (23/40)*100 to
57.49999999999999289 (23/40 rounds down to the nearest binary64), so the
program shows 57, while exact rounding of 57.5 gives 58. -/
def halfBoundarySnapshot : List Document :=
  List.replicate 17
    { id := "u", documentType := "syllabus", status := "uploaded", name := "d" } ++
  List.replicate 3
    { id := "e", documentType := "syllabus", status := "extracted", name := "d" }

/-- A record whose status string falls outside the four counted buckets. -/
def strayStatusDoc : Document :=
  { id := "1", documentType := "syllabus", status := "pending", name := "doc1" }

/-- An authenticated component state with the in-flight flag set. -/
def inFlightState : ComponentState :=
  { currentUser := some "user1", documents := [], isFormatting := true,
    error := none, status := "Formatting documents..." }

/-- An unauthenticated component state with arbitrary other fields. -/
def signedOutState : ComponentState :=
  { currentUser := none, documents := [procDoc], isFormatting := false,
    error := some "old error", status := "old status" }

/-- An authenticated, idle component state. -/
def idleState : ComponentState :=
  { currentUser := some "user1", documents := scenarioBDocs, isFormatting := false,
    error := none, status := "" }

/-- A store in which user A is enrolled in course c1 and nothing else
exists. -/
def enrolledStore : List String → Bool :=
  fun p => p == ["users", "A", "courses", "c1"]

/-- A store in which no document exists. -/
def emptyStore : List String → Bool :=
  fun _ => false

/-- The foldl of calculateProgress, for any accumulator, adds one step
per document plus one per extracted-or-processed document. -/
lemma completedSteps_go (documents : List Document) : ∀ acc : Nat,
    documents.foldl
      (fun acc d =>
        acc + 1 + (if d.status == "extracted" || d.status == "processed" then 1 else 0))
      acc
      = acc + documents.length + extractedOrProcessedCount documents := by
  induction documents with
  | nil => intro acc; simp [extractedOrProcessedCount]
  | cons d rest ih =>
    intro acc
    simp only [List.foldl_cons]
    rw [ih]
    simp only [extractedOrProcessedCount, List.filter_cons, List.length_cons]
    cases h : (d.status == "extracted" || d.status == "processed") <;>
      simp [h, extractedOrProcessedCount] <;> omega

/-- The emission count of the snapshot loop does not depend on the
initial document state and equals, when a callback is installed, the
number of all-processed snapshots delivered. -/
lemma runSnapshots_snd (hb : Bool) (snaps : List (List Document)) : ∀ st : List Document,
    (runSnapshots hb st snaps).2 =
      if hb then (snaps.filter (fun s => allProcessed s)).length else 0 := by
  induction snaps with
  | nil => intro st; cases hb <;> simp [runSnapshots]
  | cons s rest ih =>
    intro st
    simp only [runSnapshots, List.filter_cons]
    rw [ih]
    cases hb <;> cases h : allProcessed s <;> simp [h] <;> try omega

/-- Adding a record to the front of the list adds 1 to the bucket sum
when its status is one of the four counted statuses and 0 otherwise. -/
lemma sumCounts_cons (d : Document) (rest : List Document) :
    sumCounts (d :: rest) =
      (if d.status = "uploaded" ∨ d.status = "extracted" ∨ d.status = "processed" ∨
          d.status = "error" then 1 else 0) + sumCounts rest := by
  unfold sumCounts documentCounts
  simp only [List.filter_cons]
  by_cases h1 : d.status = "uploaded" <;> by_cases h2 : d.status = "extracted" <;>
    by_cases h3 : d.status = "processed" <;> by_cases h4 : d.status = "error" <;>
    simp_all <;> omega

/-- For a present, nonempty string the JavaScript or-else returns the
string itself. -/
lemma jsOrElse_some_of_ne (s d : String) (h : s ≠ "") : jsOrElse (some s) d = s := by
  simp [jsOrElse, h]

/-- Prepending the fixed failure prefix never yields the empty string. -/
lemma format_prefix_ne_empty (x : String) : "Formatting failed: " ++ x ≠ "" := by
  intro hcontra
  have hlen := congrArg String.length hcontra
  rw [String.length_append] at hlen
  have h1 : ("Formatting failed: ").length = 19 := by decide
  have h2 : ("" : String).length = 0 := by decide
  omega

/-- C4 counterexample: on the 20-record snapshot with 3 extracted
(n = 20, e = 3) the program computes 57 — the binary64 evaluation of
(23/40)*100 is 57.49999999999999289, below the half boundary — while the
claimed exact formula round(100 * (n + e) / (2 * n)) = round(57.5)
gives 58. -/
theorem progress_double_rounding_gap :
    calculateProgress halfBoundarySnapshot = 57 ∧
      mathRound
          (100 * (halfBoundarySnapshot.length +
            extractedOrProcessedCount halfBoundarySnapshot))
          (2 * halfBoundarySnapshot.length) = 58 ∧
      calculateProgress halfBoundarySnapshot ≠
        mathRound
          (100 * (halfBoundarySnapshot.length +
            extractedOrProcessedCount halfBoundarySnapshot))
          (2 * halfBoundarySnapshot.length) := by
  refine ⟨by decide, by decide, by decide⟩

/-- C4 amended: for a snapshot of n records of which e have status
extracted or processed, calculateProgress returns 0 when n = 0 and
otherwise Math.round of the IEEE-754 double evaluation of
((n + e) / (2 * n)) * 100 — which can fall one below the exact
round(100 * (n + e) / (2 * n)) when the exact value sits on a half
boundary the double chain rounds under, as at n = 20, e = 3. -/
theorem calculateProgress_double_closed_form (documents : List Document) :
    calculateProgress documents =
      if documents.length = 0 then 0
      else
        doubleRoundPct (documents.length + extractedOrProcessedCount documents)
          (2 * documents.length) := by
  unfold calculateProgress
  by_cases h : documents.length = 0
  · simp [h]
  · simp only [h, if_false]
    unfold completedSteps
    rw [completedSteps_go]
    congr 1 <;> omega

/-- C5 counterexample: on the Scenario B snapshot (one extracted
syllabus, one processed transcript) the computed progress is not 75 —
the code counts the processing step for extracted records as completed,
so the snapshot evaluates to 100. -/
theorem scenarioB_progress_not_75 : calculateProgress scenarioBDocs ≠ 75 := by
  decide

/-- C5 amended: on the Scenario B snapshot the progress is 100 (not 75)
and, with no formatting in flight, canFormat is true. -/
theorem scenarioB_progress_100_canFormat :
    calculateProgress scenarioBDocs = 100 ∧ canFormat scenarioBDocs false = true := by
  constructor
  · decide
  · decide

/-- C6 counterexample: a snapshot containing one record whose status
string is outside the four counted buckets has bucket sum 0 while its
record count is 1, so the bucket sum does not equal the record count on
every snapshot. -/
theorem stray_status_breaks_count_sum :
    sumCounts [strayStatusDoc] = 0 ∧ ([strayStatusDoc] : List Document).length = 1 ∧
      sumCounts [strayStatusDoc] ≠ ([strayStatusDoc] : List Document).length := by
  refine ⟨by decide, by decide, by decide⟩

/-- C6 amended: for every snapshot the sum of the four status buckets is
at most the record count, with equality exactly when every record's
status is one of uploaded, extracted, processed, error. -/
theorem sumCounts_le_recordCount_eq_iff_known_status (documents : List Document) :
    sumCounts documents ≤ documents.length ∧
      (sumCounts documents = documents.length ↔
        ∀ d ∈ documents,
          d.status = "uploaded" ∨ d.status = "extracted" ∨ d.status = "processed" ∨
            d.status = "error") := by
  induction documents with
  | nil => exact ⟨by simp [sumCounts, documentCounts], by simp [sumCounts, documentCounts]⟩
  | cons d rest ih =>
    obtain ⟨ihle, ihiff⟩ := ih
    have hc := sumCounts_cons d rest
    by_cases h : d.status = "uploaded" ∨ d.status = "extracted" ∨ d.status = "processed" ∨
        d.status = "error"
    · rw [if_pos h] at hc
      refine ⟨by rw [hc]; simp only [List.length_cons]; omega, ?_⟩
      rw [hc]
      simp only [List.length_cons, List.mem_cons]
      constructor
      · intro heq d' hd'
        rcases hd' with rfl | hd'
        · exact h
        · exact (ihiff.mp (by omega)) d' hd'
      · intro hall
        have hr : sumCounts rest = rest.length :=
          ihiff.mpr (fun d' hd' => hall d' (Or.inr hd'))
        omega
    · rw [if_neg h] at hc
      refine ⟨by rw [hc]; simp only [List.length_cons]; omega, ?_⟩
      constructor
      · intro heq
        exfalso
        rw [hc] at heq
        simp only [List.length_cons] at heq
        omega
      · intro hall
        exact absurd (hall d (by simp)) h

/-- C1 counterexample: delivering the same all-processed snapshot twice
is one transition into the all-processed state but produces two
completion notifications — the callback fires on every all-processed
snapshot, not only on transitions. -/
theorem emissionsPerSnapshot_not_perTransition :
    emissionsCount true [[procDoc], [procDoc]] = 2 ∧
      specTransitionCount false [[procDoc], [procDoc]] = 1 ∧
      emissionsCount true [[procDoc], [procDoc]] ≠
        specTransitionCount false [[procDoc], [procDoc]] := by
  refine ⟨by decide, by decide, by decide⟩

/-- C1 amended: with a callback installed, the completion notification
is emitted once per delivered snapshot that is all-processed (nonempty
and every record processed), regardless of the prior snapshot's state;
with no callback it is never emitted. -/
theorem emissionsCount_eq_allProcessed_snapshots (hasCallback : Bool)
    (snaps : List (List Document)) :
    emissionsCount hasCallback snaps =
      if hasCallback then (snaps.filter (fun s => allProcessed s)).length else 0 := by
  unfold emissionsCount
  exact runSnapshots_snd hasCallback snaps []

/-- C2 counterexample: calling handleRetryProcessing on an authenticated
state whose in-flight flag is set still issues the external invocation —
the call is not rejected locally. -/
theorem retryProcessing_during_formatting_invokes :
    inFlightState.isFormatting = true ∧
      (handleRetryProcessing inFlightState "doc1" (CallOutcome.ok true none)).2 ≠ [] := by
  refine ⟨rfl, by decide⟩

/-- C2 amended: neither handler checks the in-flight flag. Called on an
authenticated state with isFormatting = true, handleRetryProcessing
still issues exactly one external invocation and leaves the in-flight
flag set, and handleFormatDocuments also issues its invocation (its
finally block then clears the flag). The only local rejection either
handler performs is the unauthenticated early return. -/
theorem no_inflight_guard_in_handlers (s : ComponentState) (documentId : String)
    (outcome : CallOutcome) (h : s.currentUser.isSome = true)
    (hf : s.isFormatting = true) :
    (handleRetryProcessing s documentId outcome).2.length = 1 ∧
      (handleRetryProcessing s documentId outcome).1.isFormatting = true ∧
      (handleFormatDocuments s outcome).2.length = 1 ∧
      (handleFormatDocuments s outcome).1.isFormatting = false := by
  obtain ⟨u, hu⟩ := Option.isSome_iff_exists.mp h
  rcases outcome with ⟨succ, m⟩ | m
  · cases succ <;> simp [handleRetryProcessing, handleFormatDocuments, hu, hf]
  · simp [handleRetryProcessing, handleFormatDocuments, hu, hf]

/-- C2 witness: the amended in-flight behaviour at the concrete
authenticated in-flight state. -/
theorem no_inflight_guard_in_handlers_witness :
    (handleRetryProcessing inFlightState "doc2" (CallOutcome.ok false none)).2.length = 1 ∧
      (handleRetryProcessing inFlightState "doc2" (CallOutcome.ok false none)).1.isFormatting
        = true ∧
      (handleFormatDocuments inFlightState (CallOutcome.ok false none)).2.length = 1 ∧
      (handleFormatDocuments inFlightState (CallOutcome.ok false none)).1.isFormatting
        = false :=
  no_inflight_guard_in_handlers inFlightState "doc2" (CallOutcome.ok false none) rfl rfl

/-- C3: under the rules, users/A/documents/x is readable by the
authenticated owner A, unreadable by any other principal B and by
unauthenticated requests, and no write operation is permitted for any
principal. -/
theorem documents_access_control (store : List String → Bool) (a b x : String)
    (p : Option String) (op : Op) (hab : a ≠ b) (hop : op ≠ Op.read) :
    authorize store (some a) ["users", a, "documents", x] Op.read = true ∧
      authorize store (some b) ["users", a, "documents", x] Op.read = false ∧
      authorize store none ["users", a, "documents", x] Op.read = false ∧
      authorize store p ["users", a, "documents", x] op = false := by
  refine ⟨?_, ?_, ?_, ?_⟩
  · simp [authorize, isOwner, isAuthenticated]
  · simp [authorize, isOwner, isAuthenticated]
    exact Ne.symm hab
  · simp [authorize, isOwner, isAuthenticated]
  · cases op with
    | read => exact absurd rfl hop
    | create => simp [authorize]
    | update => simp [authorize]
    | delete => simp [authorize]

/-- C3 witness: the documents access rule at principals A and B, path
users/A/documents/syllabus, and the update write kind. -/
theorem documents_access_control_witness :
    authorize emptyStore (some "A") ["users", "A", "documents", "syllabus"] Op.read = true ∧
      authorize emptyStore (some "B") ["users", "A", "documents", "syllabus"] Op.read
        = false ∧
      authorize emptyStore none ["users", "A", "documents", "syllabus"] Op.read = false ∧
      authorize emptyStore (some "A") ["users", "A", "documents", "syllabus"] Op.update
        = false :=
  documents_access_control emptyStore "A" "B" "syllabus" (some "A") Op.update
    (by decide) (by decide)

/-- C7: a thrown or transport error in handleFormatDocuments produces
exactly the state of a success-false response carrying the generic
prefixed message: the error is surfaced, the in-flight flag is cleared,
and the document list (the live subscription state) is untouched — the
handler is a total function, so no outcome aborts the aggregator. -/
theorem thrown_treated_as_failure (s : ComponentState) (m : Option String)
    (h : s.currentUser.isSome = true) :
    handleFormatDocuments s (CallOutcome.thrown m) =
        handleFormatDocuments s
          (CallOutcome.ok false
            (some ("Formatting failed: " ++ jsOrElse m "Unknown error"))) ∧
      (handleFormatDocuments s (CallOutcome.thrown m)).1.isFormatting = false ∧
      (handleFormatDocuments s (CallOutcome.thrown m)).1.error.isSome = true ∧
      (handleFormatDocuments s (CallOutcome.thrown m)).1.documents = s.documents := by
  obtain ⟨u, hu⟩ := Option.isSome_iff_exists.mp h
  have hne := format_prefix_ne_empty (jsOrElse m "Unknown error")
  simp [handleFormatDocuments, hu, jsOrElse_some_of_ne _ _ hne]

/-- C7 witness: the thrown-error treatment at the concrete idle
authenticated state with a concrete error message. -/
theorem thrown_treated_as_failure_witness :
    handleFormatDocuments idleState (CallOutcome.thrown (some "network down")) =
        handleFormatDocuments idleState
          (CallOutcome.ok false
            (some ("Formatting failed: " ++ jsOrElse (some "network down") "Unknown error"))) ∧
      (handleFormatDocuments idleState (CallOutcome.thrown (some "network down"))).1.isFormatting
        = false ∧
      (handleFormatDocuments idleState
          (CallOutcome.thrown (some "network down"))).1.error.isSome = true ∧
      (handleFormatDocuments idleState (CallOutcome.thrown (some "network down"))).1.documents
        = idleState.documents :=
  thrown_treated_as_failure idleState (some "network down") rfl

/-- C8: for every authenticated state, every document identifier and
every outcome, handleRetryProcessing issues exactly the invocation
handleFormatDocuments issues — the single call of formatDocumentsData
with an empty argument object; the retry is whole-batch, never
document-specific. -/
theorem retry_and_format_same_invocation (s : ComponentState) (documentId : String)
    (outcome : CallOutcome) (h : s.currentUser.isSome = true) :
    (handleRetryProcessing s documentId outcome).2 = (handleFormatDocuments s outcome).2 ∧
      (handleFormatDocuments s outcome).2 = [{ fname := "formatDocumentsData", args := [] }] := by
  obtain ⟨u, hu⟩ := Option.isSome_iff_exists.mp h
  rcases outcome with ⟨succ, m⟩ | m
  · cases succ <;> simp [handleRetryProcessing, handleFormatDocuments, hu]
  · simp [handleRetryProcessing, handleFormatDocuments, hu]

/-- C8 witness: the invocation equality at a concrete authenticated
state and document identifier. -/
theorem retry_and_format_same_invocation_witness :
    (handleRetryProcessing idleState "doc42" (CallOutcome.ok true none)).2 =
        (handleFormatDocuments idleState (CallOutcome.ok true none)).2 ∧
      (handleFormatDocuments idleState (CallOutcome.ok true none)).2 =
        [{ fname := "formatDocumentsData", args := [] }] :=
  retry_and_format_same_invocation idleState "doc42" (CallOutcome.ok true none) rfl

/-- C9: a read of courses/{courseId} is denied when unauthenticated and,
for an authenticated principal u, permitted exactly when the enrollment
document users/u/courses/{courseId} exists; every write kind is denied
for every principal. -/
theorem courses_access_control (store : List String → Bool) (auth : Option String)
    (c u : String) (op : Op) (hop : op ≠ Op.read) :
    authorize store none ["courses", c] Op.read = false ∧
      authorize store (some u) ["courses", c] Op.read = store ["users", u, "courses", c] ∧
      authorize store auth ["courses", c] op = false := by
  refine ⟨by simp [authorize, isAuthenticated], by simp [authorize, isAuthenticated], ?_⟩
  cases op with
  | read => exact absurd rfl hop
  | create => simp [authorize]
  | update => simp [authorize]
  | delete => simp [authorize]

/-- C9 witness: the courses rule at the concrete store in which A is
enrolled in c1, evaluated for principal A and the update write kind. -/
theorem courses_access_control_witness :
    authorize enrolledStore none ["courses", "c1"] Op.read = false ∧
      authorize enrolledStore (some "A") ["courses", "c1"] Op.read =
        enrolledStore ["users", "A", "courses", "c1"] ∧
      authorize enrolledStore (some "A") ["courses", "c1"] Op.update = false :=
  courses_access_control enrolledStore (some "A") "c1" "A" Op.update (by decide)

/-- C10: with no authenticated principal, both handlers return the state
unchanged and issue no external invocation. -/
theorem signedOut_handlers_are_noops (s : ComponentState) (documentId : String)
    (outcome : CallOutcome) (h : s.currentUser = none) :
    handleFormatDocuments s outcome = (s, []) ∧
      handleRetryProcessing s documentId outcome = (s, []) := by
  simp [handleFormatDocuments, handleRetryProcessing, h]

/-- C10 witness: the unauthenticated no-op behaviour at a concrete
signed-out state. -/
theorem signedOut_handlers_are_noops_witness :
    handleFormatDocuments signedOutState (CallOutcome.ok true none) = (signedOutState, []) ∧
      handleRetryProcessing signedOutState "doc1" (CallOutcome.ok true none)
        = (signedOutState, []) :=
  signedOut_handlers_are_noops signedOutState "doc1" (CallOutcome.ok true none) rfl

end GradingCalendar
